import Mathlib

/-!
Verification of the Medical-DS front-end (Angular) and its ingestion engine
against the natural-language specification.  The front-end code
(medical-record.service.ts, patients / upload / emr / population-dashboard
components, app.routes.ts) is embedded shallowly: each HTTP-issuing service
method is modelled as a function producing either an error (the thrown
`Error`) or a description of the HTTP request it issues; component methods
are modelled as pure state transformers.
-/

/-- A browser `File` value: a name plus opaque content. -/
structure UpFile where
  name : String
  content : String
deriving DecidableEq

/-- One value stored in a `FormData` entry: either an appended file or a text field. -/
inductive FormValue where
  | file (f : UpFile)
  | text (s : String)
deriving DecidableEq

/-- A `FormData` object: an ordered list of (key, value) entries. -/
abbrev FormData := List (String × FormValue)

/-- HTTP method of a request issued through Angular's HttpClient. -/
inductive HttpMethod where
  | get
  | post
deriving DecidableEq

/-- A description of one HTTP request: method, URL, query parameters
(`HttpParams`), and optional form body. -/
structure HttpRequest where
  method : HttpMethod
  url : String
  params : List (String × String)
  body : Option FormData
deriving DecidableEq

/-- The `MedicalRecordService` state: the Flask base URL and the stored
MySQL connection URL. -/
structure MedicalRecordService where
  baseUrl : String
  mysqlUrl : String
deriving DecidableEq

/-- The service as built by its constructor: field initializers of
medical-record.service.ts lines 9-10. -/
def MedicalRecordService.init : MedicalRecordService :=
  { baseUrl := "http://127.0.0.1:5000"
    mysqlUrl := "mysql+pymysql://root@localhost:3306/healthcare_db" }

/-- `setMySqlUrl(url)`: stores the MySQL connection URL. -/
def MedicalRecordService.setMySqlUrl (s : MedicalRecordService) (url : String) :
    MedicalRecordService :=
  { s with mysqlUrl := url }

/-- `getMySqlUrl()`: returns the stored MySQL connection URL. -/
def MedicalRecordService.getMySqlUrl (s : MedicalRecordService) : String :=
  s.mysqlUrl

/-- `validateMySqlUrl()`: throws `Error('MySQL URL is not set')` when the
stored URL is falsy (for a string: empty). -/
def MedicalRecordService.validateMySqlUrl (s : MedicalRecordService) :
    Except String Unit :=
  if s.mysqlUrl = "" then .error "MySQL URL is not set" else .ok ()

/-- Builds a GET request with the given URL and params (no body). -/
def mkGet (url : String) (params : List (String × String)) : HttpRequest :=
  { method := .get, url := url, params := params, body := none }

/-- `getUserEncounters(patientId)`. -/
def MedicalRecordService.getUserEncounters (s : MedicalRecordService)
    (patientId : String) : Except String HttpRequest :=
  match s.validateMySqlUrl with
  | .error e => .error e
  | .ok _ => .ok (mkGet (s.baseUrl ++ "/get_user_encounters")
      [("mysql_url", s.mysqlUrl), ("patient_id", patientId)])

/-- `getEncounterDetails(encounterId)`. -/
def MedicalRecordService.getEncounterDetails (s : MedicalRecordService)
    (encounterId : String) : Except String HttpRequest :=
  match s.validateMySqlUrl with
  | .error e => .error e
  | .ok _ => .ok (mkGet (s.baseUrl ++ "/get_encounter_details")
      [("mysql_url", s.mysqlUrl), ("encounter_id", encounterId)])

/-- `getPatientObservations(patientId)`. -/
def MedicalRecordService.getPatientObservations (s : MedicalRecordService)
    (patientId : String) : Except String HttpRequest :=
  match s.validateMySqlUrl with
  | .error e => .error e
  | .ok _ => .ok (mkGet (s.baseUrl ++ "/observations/patient")
      [("mysql_url", s.mysqlUrl), ("patient_id", patientId)])

/-- `getPatientImmunizations(patientId)`. -/
def MedicalRecordService.getPatientImmunizations (s : MedicalRecordService)
    (patientId : String) : Except String HttpRequest :=
  match s.validateMySqlUrl with
  | .error e => .error e
  | .ok _ => .ok (mkGet (s.baseUrl ++ "/immunizations/patient")
      [("mysql_url", s.mysqlUrl), ("patient_id", patientId)])

/-- `getPatientConditions(patientId)`. -/
def MedicalRecordService.getPatientConditions (s : MedicalRecordService)
    (patientId : String) : Except String HttpRequest :=
  match s.validateMySqlUrl with
  | .error e => .error e
  | .ok _ => .ok (mkGet (s.baseUrl ++ "/conditions/patient")
      [("mysql_url", s.mysqlUrl), ("patient_id", patientId)])

/-- `getPatientMedicationRequests(patientId)`. -/
def MedicalRecordService.getPatientMedicationRequests (s : MedicalRecordService)
    (patientId : String) : Except String HttpRequest :=
  match s.validateMySqlUrl with
  | .error e => .error e
  | .ok _ => .ok (mkGet (s.baseUrl ++ "/medication-requests/patient")
      [("mysql_url", s.mysqlUrl), ("patient_id", patientId)])

/-- `getPatientCareplans(patientId)`. -/
def MedicalRecordService.getPatientCareplans (s : MedicalRecordService)
    (patientId : String) : Except String HttpRequest :=
  match s.validateMySqlUrl with
  | .error e => .error e
  | .ok _ => .ok (mkGet (s.baseUrl ++ "/careplans/patient")
      [("mysql_url", s.mysqlUrl), ("patient_id", patientId)])

/-- `getDashboardData()`: inline falsy check, then GET /dashboard. -/
def MedicalRecordService.getDashboardData (s : MedicalRecordService) :
    Except String HttpRequest :=
  if s.mysqlUrl = "" then .error "MySQL URL is not set"
  else .ok (mkGet (s.baseUrl ++ "/dashboard") [("mysql_url", s.mysqlUrl)])

/-- `uploadFiles(formData)`: inline falsy check, append the MySQL URL to the
form data under key mysql_url, then POST /upload. -/
def MedicalRecordService.uploadFiles (s : MedicalRecordService) (formData : FormData) :
    Except String HttpRequest :=
  if s.mysqlUrl = "" then .error "MySQL URL is not set"
  else .ok { method := .post, url := s.baseUrl ++ "/upload", params := [],
             body := some (formData ++ [("mysql_url", FormValue.text s.mysqlUrl)]) }

/-- `getPatientEMR(patientId)`. -/
def MedicalRecordService.getPatientEMR (s : MedicalRecordService)
    (patientId : String) : Except String HttpRequest :=
  if s.mysqlUrl = "" then .error "MySQL URL is not set"
  else .ok (mkGet (s.baseUrl ++ "/search_patient")
      [("mysql_url", s.mysqlUrl), ("patient_id", patientId)])

/-- `getAllPatients()`. -/
def MedicalRecordService.getAllPatients (s : MedicalRecordService) :
    Except String HttpRequest :=
  if s.mysqlUrl = "" then .error "MySQL URL is not set"
  else .ok (mkGet (s.baseUrl ++ "/patients") [("mysql_url", s.mysqlUrl)])

/-- `searchPatientsByName(name)`. -/
def MedicalRecordService.searchPatientsByName (s : MedicalRecordService)
    (nm : String) : Except String HttpRequest :=
  if s.mysqlUrl = "" then .error "MySQL URL is not set"
  else .ok (mkGet (s.baseUrl ++ "/search_patient")
      [("mysql_url", s.mysqlUrl), ("name", nm)])

/-- `getPatientEncounters(patientId)`. -/
def MedicalRecordService.getPatientEncounters (s : MedicalRecordService)
    (patientId : String) : Except String HttpRequest :=
  if s.mysqlUrl = "" then .error "MySQL URL is not set"
  else .ok (mkGet (s.baseUrl ++ "/get_user_encounters")
      [("mysql_url", s.mysqlUrl), ("patient_id", patientId)])

/-!  PatientsComponent (patients.component.ts): search filter and table columns. -/

/-- One patient row as served by the /patients endpoint and rendered by the
patients table: identity fields plus the seven per-child-entity summary counts. -/
structure PatientRow where
  patient_id : String
  full_name : String
  birth_date : String
  gender : String
  deceased_datetime : Option String
  encounter_count : Nat
  condition_count : Nat
  observation_count : Nat
  request_count : Nat
  procedure_count : Nat
  immunization_count : Nat
  careplan_count : Nat
deriving DecidableEq

/-- The `displayedColumns` array of PatientsComponent. -/
def displayedColumns : List String :=
  [ "patient_id"
  , "full_name"
  , "birth_date"
  , "gender"
  , "deceased_datetime"
  , "encounter_count"
  , "condition_count"
  , "observation_count"
  , "request_count"
  , "procedure_count"
  , "immunization_count"
  , "careplan_count" ]

/-- JavaScript `String.prototype.startsWith` at the head of a character list:
the needle matches the beginning of the haystack. -/
def leadsWith : List Char → List Char → Bool
  | [], _ => true
  | _ :: _, [] => false
  | a :: as, b :: bs => a == b && leadsWith as bs

/-- JavaScript `String.prototype.includes` on character lists: the needle
occurs contiguously somewhere in the haystack. -/
def containsSub : List Char → List Char → Bool
  | [], needle => needle.isEmpty
  | a :: t, needle => leadsWith needle (a :: t) || containsSub t needle

/-- JavaScript `hay.includes(needle)` on strings. -/
def strIncludes (hay needle : String) : Bool :=
  containsSub hay.data needle.data

/-- JavaScript `toLowerCase()`: lowercases every character. -/
def strToLower (s : String) : String :=
  String.mk (s.data.map Char.toLower)

/-- The filtering pipeline of `PatientsComponent.ngOnInit`: a search value
(null coalesced to the empty string) filters the fetched patient list by
case-insensitive substring match on `full_name`. -/
def filterPatients (patients : List PatientRow) (query : Option String) :
    List PatientRow :=
  let q := query.getD ""
  patients.filter (fun patient =>
    strIncludes (strToLower patient.full_name) (strToLower q))

/-!  PopulationDashboardComponent (population-dashboard.component.ts). -/

/-- One bucket of the dashboard's `patients_by_gender` field. -/
structure GenderBucket where
  gender : String
  patient_count : Nat
deriving DecidableEq

/-- One bucket of `conditions_by_category` / `top_conditions`. -/
structure ConditionBucket where
  code_text : String
  condition_count : Nat
deriving DecidableEq

/-- One bucket of `immunization_over_time`. -/
structure ImmunizationBucket where
  year : Nat
  month : Nat
  immunization_count : Nat
deriving DecidableEq

/-- One bucket of `encounters_over_time`. -/
structure EncounterBucket where
  year : Nat
  month : Nat
  encounter_count : Nat
deriving DecidableEq

/-- One bucket of `medication_status_distribution`. -/
structure MedicationBucket where
  status : String
  medication_count : Nat
deriving DecidableEq

/-- The /dashboard response consumed by the population dashboard. -/
structure DashboardData where
  patients_by_gender : List GenderBucket
  conditions_by_category : List ConditionBucket
  immunization_over_time : List ImmunizationBucket
  encounters_over_time : List EncounterBucket
  medication_status_distribution : List MedicationBucket
  top_conditions : List ConditionBucket
deriving DecidableEq

/-- Chart.js chart type used by the dashboard. -/
inductive ChartKind where
  | pie
  | bar
  | line
deriving DecidableEq

/-- One Chart.js chart as configured by `createCharts`: target canvas id,
chart type, axis labels and the single dataset's label and data. -/
structure ChartConfig where
  canvasId : String
  kind : ChartKind
  labels : List String
  datasetLabel : Option String
  data : List Nat
deriving DecidableEq

/-- `PopulationDashboardComponent.createCharts`: builds the six charts from
the corresponding fields of the dashboard response; the two time series are
labeled with JavaScript template strings of the form year-month. -/
def createCharts (d : DashboardData) : List ChartConfig :=
  [ { canvasId := "genderChart", kind := .pie
    , labels := d.patients_by_gender.map (fun item => item.gender)
    , datasetLabel := none
    , data := d.patients_by_gender.map (fun item => item.patient_count) }
  , { canvasId := "conditionsCategoryChart", kind := .bar
    , labels := d.conditions_by_category.map (fun item => item.code_text)
    , datasetLabel := some "Conditions Count"
    , data := d.conditions_by_category.map (fun item => item.condition_count) }
  , { canvasId := "immunizationChart", kind := .line
    , labels := d.immunization_over_time.map
        (fun item => toString item.year ++ "-" ++ toString item.month)
    , datasetLabel := some "Immunization Count"
    , data := d.immunization_over_time.map (fun item => item.immunization_count) }
  , { canvasId := "encounterChart", kind := .line
    , labels := d.encounters_over_time.map
        (fun item => toString item.year ++ "-" ++ toString item.month)
    , datasetLabel := some "Encounter Count"
    , data := d.encounters_over_time.map (fun item => item.encounter_count) }
  , { canvasId := "medicationStatusChart", kind := .pie
    , labels := d.medication_status_distribution.map (fun item => item.status)
    , datasetLabel := none
    , data := d.medication_status_distribution.map (fun item => item.medication_count) }
  , { canvasId := "topConditionsChart", kind := .bar
    , labels := d.top_conditions.map (fun item => item.code_text)
    , datasetLabel := some "Condition Count"
    , data := d.top_conditions.map (fun item => item.condition_count) } ]

/-!  UploadComponent (upload.component.ts). -/

/-- The UploadComponent state: `selectedFiles` (a FileList or null),
`directoryFiles`, the `isUploading` flag and the status message. -/
structure UploadComponent where
  selectedFiles : Option (List UpFile)
  directoryFiles : List UpFile
  isUploading : Bool
  uploadMessage : String
deriving DecidableEq

/-- The UploadComponent as constructed: no selection, no directory files,
not uploading, empty message. -/
def UploadComponent.initial : UploadComponent :=
  { selectedFiles := none, directoryFiles := [], isUploading := false
    uploadMessage := "" }

/-- `UploadComponent.uploadFiles()` (the synchronous part, up to issuing the
request): when a FileList is selected or the directory list is nonempty, set
`isUploading`, build the FormData with every selected file and every
directory file under key files, and call the service upload (which may throw
if the MySQL URL is unset); otherwise only set the message asking the user
to select files.  Returns the new component state and the issued call, if
any. -/
def UploadComponent.runUploadFiles (c : UploadComponent)
    (svc : MedicalRecordService) :
    UploadComponent × Option (Except String HttpRequest) :=
  if c.selectedFiles.isSome || decide (c.directoryFiles.length > 0) then
    let formData : FormData :=
      (c.selectedFiles.getD []).map (fun f => ("files", FormValue.file f)) ++
      c.directoryFiles.map (fun f => ("files", FormValue.file f))
    ({ c with isUploading := true }, some (svc.uploadFiles formData))
  else
    ({ c with uploadMessage := "Please select files to upload." }, none)

/-!  EmrComponent (emr.component.ts). -/

/-- `EmrComponent.ngOnInit`: reads the patient id from the route; when
present, fetches the patient detail and the six per-patient lists
(encounters, observations, immunizations, careplans, conditions, medication
requests), in source order; when absent, issues no fetch.  Returns the list
of issued service calls. -/
def emrNgOnInit (svc : MedicalRecordService) (routeId : Option String) :
    List (Except String HttpRequest) :=
  match routeId with
  | none => []
  | some patientId =>
    [ svc.getPatientEMR patientId
    , svc.getPatientEncounters patientId
    , svc.getPatientObservations patientId
    , svc.getPatientImmunizations patientId
    , svc.getPatientCareplans patientId
    , svc.getPatientConditions patientId
    , svc.getPatientMedicationRequests patientId ]

/-- `EmrComponent.viewEncounterDetails(encounterId)`: fetches one
encounter's detail by id. -/
def emrViewEncounterDetails (svc : MedicalRecordService)
    (encounterId : String) : Except String HttpRequest :=
  svc.getEncounterDetails encounterId

/-!  Ingestion engine (healthcare_etl.py is not part of src/: the loader /
upsert engine and the batch fault-isolation behaviour are modelled from the
spec, sections 4.1, 4.5, 7 and 8). -/

/-- Modelled from the spec: the eight resource types the engine supports
(the ETL source healthcare_etl.py itself is not in src/). -/
inductive ResourceType where
  | patient
  | encounter
  | condition
  | observation
  | immunization
  | careplan
  | medicationRequest
  | procedure
deriving DecidableEq

/-- The (type, id) key that identifies one persisted row. -/
abbrev RKey := ResourceType × String

/-- Modelled from the spec: one persisted relational row — its resource
type, its string resource id, and its mapped scalar fields. -/
structure Row where
  rtype : ResourceType
  rid : String
  fields : List (String × String)
deriving DecidableEq

/-- The idempotency key of a row: its (type, id) pair. -/
def rowKey (r : Row) : RKey := (r.rtype, r.rid)

/-- Replaces a row by `v` when its key is `k`, leaves it unchanged otherwise. -/
def overwriteRow (k : RKey) (v : Row) (x : Row) : Row :=
  if rowKey x = k then v else x

/-- Whether some row of the store carries key `k`. -/
def keyPresent (st : List Row) (k : RKey) : Bool :=
  st.any (fun x => decide (rowKey x = k))

/-- Modelled from the spec: the loader/upsert step of section 4.5 (the ETL
source is not in src/) — if no row with the (type, id) key exists, insert
the row; if one exists, update all mapped fields in place unconditionally
(last-write-wins), never producing a second row for the same key. -/
def upsert (st : List Row) (r : Row) : List Row :=
  if keyPresent st (rowKey r) then st.map (overwriteRow (rowKey r) r)
  else st ++ [r]

/-- Modelled from the spec: loading one batch of transformed rows into the
store, document order preserved, each by upsert. -/
def ingestBatch (st : List Row) (batch : List Row) : List Row :=
  batch.foldl upsert st

/-- Modelled from the spec: one input document of a batch before decoding —
either malformed (decoding fails) or a well-formed document carrying one
resource row (the ETL source is not in src/). -/
inductive RawDoc where
  | malformed (src : String)
  | wellFormed (r : Row)
deriving DecidableEq

/-- Modelled from the spec: the per-document error classes surfaced in a
batch result (section 7); only decode failures occur in this fragment. -/
inductive IngestError where
  | decodeError (src : String)
deriving DecidableEq

/-- The outcome of one batch: the store after commit and the collected
per-document errors. -/
structure BatchResult where
  store : List Row
  errors : List IngestError
deriving DecidableEq

/-- Modelled from the spec: processing one document of a batch — a
malformed document contributes a DecodeError to the batch result and is
skipped; a well-formed document is loaded by upsert (sections 4.1 and 7). -/
def processDoc (acc : BatchResult) (d : RawDoc) : BatchResult :=
  match d with
  | .malformed src => { acc with errors := acc.errors ++ [.decodeError src] }
  | .wellFormed r => { acc with store := upsert acc.store r }

/-- Modelled from the spec: running one ingestion batch over a starting
store: documents are processed in order, errors collected, valid rows
loaded; a bad document never aborts the batch. -/
def runBatch (st : List Row) (docs : List RawDoc) : BatchResult :=
  docs.foldl processDoc { store := st, errors := [] }

/-- The well-formed rows of a batch, in order. -/
def validRows (docs : List RawDoc) : List Row :=
  docs.filterMap (fun d => match d with
    | .wellFormed r => some r
    | .malformed _ => none)

/-- The sources of the malformed documents of a batch, in order. -/
def decodeFailures (docs : List RawDoc) : List String :=
  docs.filterMap (fun d => match d with
    | .wellFormed _ => none
    | .malformed src => some src)

/-!  Lemmas about the JavaScript-style substring test. -/

/-- `leadsWith` holds exactly when the haystack starts with the needle. -/
theorem leadsWith_iff (n : List Char) : ∀ h, leadsWith n h = true ↔ ∃ r, h = n ++ r := by
  induction n with
  | nil =>
    intro h
    simp [leadsWith]
  | cons a as ih =>
    intro h
    cases h with
    | nil =>
      simp [leadsWith]
    | cons b bs =>
      simp only [leadsWith, Bool.and_eq_true, beq_iff_eq, ih bs, List.cons_append]
      constructor
      · rintro ⟨rfl, r, rfl⟩
        exact ⟨r, rfl⟩
      · rintro ⟨r, hr⟩
        injection hr with h1 h2
        exact ⟨h1.symm, r, h2⟩

/-- `containsSub` holds exactly when the needle occurs contiguously in the
haystack. -/
theorem containsSub_iff (n : List Char) : ∀ h, containsSub h n = true ↔
    ∃ l r, h = l ++ n ++ r := by
  intro h
  induction h with
  | nil =>
    simp only [containsSub, List.isEmpty_iff]
    constructor
    · rintro rfl
      exact ⟨[], [], rfl⟩
    · rintro ⟨l, r, hr⟩
      rcases List.append_eq_nil.mp hr.symm with ⟨h1, h2⟩
      exact (List.append_eq_nil.mp h1).2
  | cons a t ih =>
    simp only [containsSub, Bool.or_eq_true, leadsWith_iff, ih]
    constructor
    · rintro (⟨r, hr⟩ | ⟨l, r, rfl⟩)
      · exact ⟨[], r, by simpa using hr⟩
      · exact ⟨a :: l, r, by simp⟩
    · rintro ⟨l, r, hr⟩
      cases l with
      | nil =>
        exact Or.inl ⟨r, by simpa using hr⟩
      | cons x l2 =>
        simp only [List.cons_append] at hr
        injection hr with h1 h2
        exact Or.inr ⟨l2, r, h2⟩

/-- The empty needle is contained in every haystack (JavaScript
`includes('')` is always true). -/
theorem containsSub_nil : ∀ h : List Char, containsSub h [] = true := by
  intro h
  cases h with
  | nil => rfl
  | cons a t => simp [containsSub, leadsWith]

/-- C1: for every patient list and every search value emitted by the search
control, the filtered list is exactly the sublist of patients whose
full name contains the query as a substring, case-insensitively; a null
query is treated as the empty string and the empty query keeps every
patient. -/
theorem patients_filter_matches_substring_search (ps : List PatientRow) (q : String) :
    filterPatients ps none = ps ∧
    filterPatients ps (some "") = ps ∧
    filterPatients ps (some q) =
      ps.filter (fun p => strIncludes (strToLower p.full_name) (strToLower q)) ∧
    (∀ hay needle : String, strIncludes hay needle = true ↔
      ∃ l r, hay.data = l ++ needle.data ++ r) := by
  have hlow : strToLower "" = "" := rfl
  have hempty : ∀ s : String, strIncludes s "" = true := by
    intro s
    exact containsSub_nil s.data
  refine ⟨?_, ?_, rfl, ?_⟩
  · simp only [filterPatients, Option.getD]
    rw [List.filter_eq_self]
    intro p _
    rw [hlow]
    exact hempty _
  · simp only [filterPatients, Option.getD]
    rw [List.filter_eq_self]
    intro p _
    rw [hlow]
    exact hempty _
  · intro hay needle
    exact containsSub_iff needle.data hay.data

/-- Witness for C1 at a concrete patient list and query. -/
theorem patients_filter_search_witness :
    filterPatients
      [ { patient_id := "p1", full_name := "Alice Grant", birth_date := "1990-01-01"
          gender := "female", deceased_datetime := none, encounter_count := 1
          condition_count := 0, observation_count := 2, request_count := 0
          procedure_count := 0, immunization_count := 1, careplan_count := 0 }
      , { patient_id := "p2", full_name := "Bob Stone", birth_date := "1985-05-05"
          gender := "male", deceased_datetime := none, encounter_count := 0
          condition_count := 1, observation_count := 0, request_count := 1
          procedure_count := 1, immunization_count := 0, careplan_count := 1 } ]
      (some "aliCE") =
    [ { patient_id := "p1", full_name := "Alice Grant", birth_date := "1990-01-01"
        gender := "female", deceased_datetime := none, encounter_count := 1
        condition_count := 0, observation_count := 2, request_count := 0
        procedure_count := 0, immunization_count := 1, careplan_count := 0 } ] := by
  rw [(patients_filter_matches_substring_search _ "aliCE").2.2.1]
  decide

/-- The five patient identity columns of the spec's PatientSummary view,
following the spec's words (id, full name, birth date, gender, deceased
datetime). -/
def specPatientIdentityColumns : List String :=
  ["patient_id", "full_name", "birth_date", "gender", "deceased_datetime"]

/-- The per-child-entity summary-count columns, following the spec's words:
one count per child entity type (encounters, conditions, observations,
medication requests, procedures, immunizations, careplans). -/
def specSummaryCountColumns : List String :=
  [ "encounter_count", "condition_count", "observation_count"
  , "request_count", "procedure_count", "immunization_count"
  , "careplan_count" ]

/-- C3: the patient table shows the patient identity fields and exactly one
summary-count column per child entity type — the seven counts — with no
duplicated column. -/
theorem patients_table_columns_complete :
    displayedColumns = specPatientIdentityColumns ++ specSummaryCountColumns ∧
    specSummaryCountColumns.length = 7 ∧
    displayedColumns.Nodup := by
  decide

/-- C2: createCharts renders exactly the six aggregates of the spec, in this
order, each from the corresponding field of the dashboard response, the two
time series labeled by year-month buckets. -/
theorem dashboard_renders_enumerated_aggregates (d : DashboardData) :
    ∃ g cc im en ms tc : ChartConfig,
      createCharts d = [g, cc, im, en, ms, tc] ∧
      (g.canvasId = "genderChart" ∧
        g.labels = d.patients_by_gender.map (fun item => item.gender) ∧
        g.data = d.patients_by_gender.map (fun item => item.patient_count)) ∧
      (cc.canvasId = "conditionsCategoryChart" ∧
        cc.labels = d.conditions_by_category.map (fun item => item.code_text) ∧
        cc.data = d.conditions_by_category.map (fun item => item.condition_count)) ∧
      (im.canvasId = "immunizationChart" ∧
        im.labels = d.immunization_over_time.map
          (fun item => toString item.year ++ "-" ++ toString item.month) ∧
        im.data = d.immunization_over_time.map
          (fun item => item.immunization_count)) ∧
      (en.canvasId = "encounterChart" ∧
        en.labels = d.encounters_over_time.map
          (fun item => toString item.year ++ "-" ++ toString item.month) ∧
        en.data = d.encounters_over_time.map (fun item => item.encounter_count)) ∧
      (ms.canvasId = "medicationStatusChart" ∧
        ms.labels = d.medication_status_distribution.map (fun item => item.status) ∧
        ms.data = d.medication_status_distribution.map
          (fun item => item.medication_count)) ∧
      (tc.canvasId = "topConditionsChart" ∧
        tc.labels = d.top_conditions.map (fun item => item.code_text) ∧
        tc.data = d.top_conditions.map (fun item => item.condition_count)) :=
  ⟨_, _, _, _, _, _, rfl, ⟨rfl, rfl, rfl⟩, ⟨rfl, rfl, rfl⟩, ⟨rfl, rfl, rfl⟩,
    ⟨rfl, rfl, rfl⟩, ⟨rfl, rfl, rfl⟩, ⟨rfl, rfl, rfl⟩⟩

/-- C9: setMySqlUrl then getMySqlUrl returns exactly the stored string, and
setMySqlUrl leaves the only other service state, the base URL, unchanged. -/
theorem set_get_mysql_url_roundtrip (s : MedicalRecordService) (u : String) :
    (s.setMySqlUrl u).getMySqlUrl = u ∧ (s.setMySqlUrl u).baseUrl = s.baseUrl :=
  ⟨rfl, rfl⟩

/-- C10: uploadFiles with no selection and an empty directory list issues no
request, sets only the message asking to select files, and leaves
selectedFiles, directoryFiles and isUploading unchanged. -/
theorem upload_without_files_only_sets_message (c : UploadComponent)
    (svc : MedicalRecordService)
    (h1 : c.selectedFiles = none) (h2 : c.directoryFiles = []) :
    c.runUploadFiles svc =
      ({ c with uploadMessage := "Please select files to upload." }, none) ∧
    (c.runUploadFiles svc).1.selectedFiles = c.selectedFiles ∧
    (c.runUploadFiles svc).1.directoryFiles = c.directoryFiles ∧
    (c.runUploadFiles svc).1.isUploading = c.isUploading := by
  have hmain : c.runUploadFiles svc =
      ({ c with uploadMessage := "Please select files to upload." }, none) := by
    simp [UploadComponent.runUploadFiles, h1, h2]
  refine ⟨hmain, ?_, ?_, ?_⟩ <;> rw [hmain]

/-- Witness for C10 at the freshly constructed component. -/
theorem upload_without_files_witness :
    UploadComponent.initial.runUploadFiles MedicalRecordService.init =
      ({ UploadComponent.initial with
          uploadMessage := "Please select files to upload." }, none) :=
  (upload_without_files_only_sets_message UploadComponent.initial
    MedicalRecordService.init rfl rfl).1

/-- C4: whenever at least one file is selected or scanned from a directory
(and the stored connection descriptor is set, as it is by default), the
upload invocation issues exactly one POST to the /upload endpoint whose form
body lists every selected file and every directory file under key files,
followed by the connection descriptor under key mysql_url; the component
enters the uploading state. -/
theorem upload_sends_all_files_with_mysql_url (c : UploadComponent)
    (svc : MedicalRecordService)
    (hfiles : 0 < (c.selectedFiles.getD []).length + c.directoryFiles.length)
    (hurl : svc.mysqlUrl ≠ "") :
    (c.runUploadFiles svc).2 =
      some (.ok
        { method := .post
          url := svc.baseUrl ++ "/upload"
          params := []
          body := some
            (((c.selectedFiles.getD []).map (fun f => ("files", FormValue.file f)) ++
              c.directoryFiles.map (fun f => ("files", FormValue.file f))) ++
             [("mysql_url", FormValue.text svc.mysqlUrl)]) }) ∧
    (c.runUploadFiles svc).1.isUploading = true := by
  have hcond : (c.selectedFiles.isSome ||
      decide (c.directoryFiles.length > 0)) = true := by
    rcases hsel : c.selectedFiles with _ | l
    · rw [hsel] at hfiles
      simp only [Option.getD_none, List.length_nil, Nat.zero_add] at hfiles
      simp [hfiles]
    · simp
  constructor
  · simp only [UploadComponent.runUploadFiles, hcond, if_true,
      MedicalRecordService.uploadFiles, if_neg hurl]
  · simp only [UploadComponent.runUploadFiles, hcond, if_true]

/-- Witness for C4: one selected file, one directory file, default service. -/
theorem upload_sends_all_files_witness :
    ({ UploadComponent.initial with
        selectedFiles := some [{ name := "a.json", content := "A" }]
        directoryFiles := [{ name := "b.json", content := "B" }]
      }.runUploadFiles MedicalRecordService.init).2 =
      some (.ok
        { method := .post
          url := "http://127.0.0.1:5000/upload"
          params := []
          body := some
            [ ("files", FormValue.file { name := "a.json", content := "A" })
            , ("files", FormValue.file { name := "b.json", content := "B" })
            , ("mysql_url", FormValue.text
                "mysql+pymysql://root@localhost:3306/healthcare_db") ] }) := by
  rw [(upload_sends_all_files_with_mysql_url _ MedicalRecordService.init
    (by decide) (by decide)).1]
  rfl

/-- C5: with a patient id in the route, the EMR view fetches the patient's
detail record and the six per-patient child lists, each as a GET carrying
that patient id; one encounter's detail is fetchable by encounter id; with
no id in the route, no fetch is issued. -/
theorem emr_fetches_detail_and_six_child_lists (svc : MedicalRecordService)
    (pid eid : String) (h : svc.mysqlUrl ≠ "") :
    emrNgOnInit svc none = [] ∧
    emrNgOnInit svc (some pid) =
      [ .ok (mkGet (svc.baseUrl ++ "/search_patient")
          [("mysql_url", svc.mysqlUrl), ("patient_id", pid)])
      , .ok (mkGet (svc.baseUrl ++ "/get_user_encounters")
          [("mysql_url", svc.mysqlUrl), ("patient_id", pid)])
      , .ok (mkGet (svc.baseUrl ++ "/observations/patient")
          [("mysql_url", svc.mysqlUrl), ("patient_id", pid)])
      , .ok (mkGet (svc.baseUrl ++ "/immunizations/patient")
          [("mysql_url", svc.mysqlUrl), ("patient_id", pid)])
      , .ok (mkGet (svc.baseUrl ++ "/careplans/patient")
          [("mysql_url", svc.mysqlUrl), ("patient_id", pid)])
      , .ok (mkGet (svc.baseUrl ++ "/conditions/patient")
          [("mysql_url", svc.mysqlUrl), ("patient_id", pid)])
      , .ok (mkGet (svc.baseUrl ++ "/medication-requests/patient")
          [("mysql_url", svc.mysqlUrl), ("patient_id", pid)]) ] ∧
    emrViewEncounterDetails svc eid =
      .ok (mkGet (svc.baseUrl ++ "/get_encounter_details")
        [("mysql_url", svc.mysqlUrl), ("encounter_id", eid)]) := by
  refine ⟨rfl, ?_, ?_⟩
  · simp [emrNgOnInit, MedicalRecordService.getPatientEMR,
      MedicalRecordService.getPatientEncounters,
      MedicalRecordService.getPatientObservations,
      MedicalRecordService.getPatientImmunizations,
      MedicalRecordService.getPatientCareplans,
      MedicalRecordService.getPatientConditions,
      MedicalRecordService.getPatientMedicationRequests,
      MedicalRecordService.validateMySqlUrl, h]
  · simp [emrViewEncounterDetails, MedicalRecordService.getEncounterDetails,
      MedicalRecordService.validateMySqlUrl, h]

/-- Witness for C5 at the default service. -/
theorem emr_fetches_witness :
    emrNgOnInit MedicalRecordService.init none = [] ∧
    emrViewEncounterDetails MedicalRecordService.init "e1" =
      .ok (mkGet "http://127.0.0.1:5000/get_encounter_details"
        [ ("mysql_url", "mysql+pymysql://root@localhost:3306/healthcare_db")
        , ("encounter_id", "e1") ]) :=
  ⟨(emr_fetches_detail_and_six_child_lists MedicalRecordService.init "p1" "e1"
      (by decide)).1,
   (emr_fetches_detail_and_six_child_lists MedicalRecordService.init "p1" "e1"
      (by decide)).2.2⟩

/-- The request carries the stored MySQL URL under key mysql_url, either as
a query parameter or as a form-body field. -/
def requestCarriesMysqlUrl (r : HttpRequest) (u : String) : Prop :=
  ("mysql_url", u) ∈ r.params ∨
  ∃ fd, r.body = some fd ∧ ("mysql_url", FormValue.text u) ∈ fd

/-- The call succeeded and its request carries the URL `u` under key
mysql_url. -/
def okWithMysqlUrl (x : Except String HttpRequest) (u : String) : Prop :=
  ∃ r, x = .ok r ∧ requestCarriesMysqlUrl r u

/-- C8: every HTTP-issuing service method throws the error message when the
stored MySQL URL is empty and issues no request; otherwise the issued
request carries the stored URL under mysql_url.  The constructor stores a
non-empty default, and setMySqlUrl stores exactly its argument, so the
error branch is reachable only after setMySqlUrl with the empty string. -/
theorem service_requires_and_attaches_mysql_url (s : MedicalRecordService)
    (pid eid nm : String) (fd : FormData) :
    (s.mysqlUrl = "" →
      s.getUserEncounters pid = .error "MySQL URL is not set" ∧
      s.getEncounterDetails eid = .error "MySQL URL is not set" ∧
      s.getPatientObservations pid = .error "MySQL URL is not set" ∧
      s.getPatientImmunizations pid = .error "MySQL URL is not set" ∧
      s.getPatientConditions pid = .error "MySQL URL is not set" ∧
      s.getPatientMedicationRequests pid = .error "MySQL URL is not set" ∧
      s.getPatientCareplans pid = .error "MySQL URL is not set" ∧
      s.getDashboardData = .error "MySQL URL is not set" ∧
      s.uploadFiles fd = .error "MySQL URL is not set" ∧
      s.getPatientEMR pid = .error "MySQL URL is not set" ∧
      s.getAllPatients = .error "MySQL URL is not set" ∧
      s.searchPatientsByName nm = .error "MySQL URL is not set" ∧
      s.getPatientEncounters pid = .error "MySQL URL is not set") ∧
    (s.mysqlUrl ≠ "" →
      okWithMysqlUrl (s.getUserEncounters pid) s.mysqlUrl ∧
      okWithMysqlUrl (s.getEncounterDetails eid) s.mysqlUrl ∧
      okWithMysqlUrl (s.getPatientObservations pid) s.mysqlUrl ∧
      okWithMysqlUrl (s.getPatientImmunizations pid) s.mysqlUrl ∧
      okWithMysqlUrl (s.getPatientConditions pid) s.mysqlUrl ∧
      okWithMysqlUrl (s.getPatientMedicationRequests pid) s.mysqlUrl ∧
      okWithMysqlUrl (s.getPatientCareplans pid) s.mysqlUrl ∧
      okWithMysqlUrl s.getDashboardData s.mysqlUrl ∧
      okWithMysqlUrl (s.uploadFiles fd) s.mysqlUrl ∧
      okWithMysqlUrl (s.getPatientEMR pid) s.mysqlUrl ∧
      okWithMysqlUrl s.getAllPatients s.mysqlUrl ∧
      okWithMysqlUrl (s.searchPatientsByName nm) s.mysqlUrl ∧
      okWithMysqlUrl (s.getPatientEncounters pid) s.mysqlUrl) ∧
    MedicalRecordService.init.mysqlUrl ≠ "" ∧
    (∀ (t : MedicalRecordService) (u : String), (t.setMySqlUrl u).mysqlUrl = u) := by
  refine ⟨?_, ?_, by decide, fun t u => rfl⟩
  · intro h
    simp [MedicalRecordService.getUserEncounters,
      MedicalRecordService.getEncounterDetails,
      MedicalRecordService.getPatientObservations,
      MedicalRecordService.getPatientImmunizations,
      MedicalRecordService.getPatientConditions,
      MedicalRecordService.getPatientMedicationRequests,
      MedicalRecordService.getPatientCareplans,
      MedicalRecordService.getDashboardData,
      MedicalRecordService.uploadFiles,
      MedicalRecordService.getPatientEMR,
      MedicalRecordService.getAllPatients,
      MedicalRecordService.searchPatientsByName,
      MedicalRecordService.getPatientEncounters,
      MedicalRecordService.validateMySqlUrl, h]
  · intro h
    simp [MedicalRecordService.getUserEncounters,
      MedicalRecordService.getEncounterDetails,
      MedicalRecordService.getPatientObservations,
      MedicalRecordService.getPatientImmunizations,
      MedicalRecordService.getPatientConditions,
      MedicalRecordService.getPatientMedicationRequests,
      MedicalRecordService.getPatientCareplans,
      MedicalRecordService.getDashboardData,
      MedicalRecordService.uploadFiles,
      MedicalRecordService.getPatientEMR,
      MedicalRecordService.getAllPatients,
      MedicalRecordService.searchPatientsByName,
      MedicalRecordService.getPatientEncounters,
      MedicalRecordService.validateMySqlUrl, h,
      okWithMysqlUrl, requestCarriesMysqlUrl, mkGet]

/-- Witness for C8: the error branch after storing an empty URL, and the ok
branch at the default service. -/
theorem service_mysql_url_witness :
    (MedicalRecordService.init.setMySqlUrl "").getUserEncounters "p1" =
      .error "MySQL URL is not set" ∧
    okWithMysqlUrl (MedicalRecordService.init.getAllPatients)
      MedicalRecordService.init.mysqlUrl :=
  ⟨((service_requires_and_attaches_mysql_url
      (MedicalRecordService.init.setMySqlUrl "") "p1" "e1" "n" []).1 rfl).1,
   ((service_requires_and_attaches_mysql_url
      MedicalRecordService.init "p1" "e1" "n" []).2.1
      (by decide)).2.2.2.2.2.2.2.2.2.2.1⟩

/-!  Lemmas about the upsert store. -/

/-- Unfolding one load step of a batch. -/
theorem ingest_cons (st : List Row) (r : Row) (b : List Row) :
    ingestBatch st (r :: b) = ingestBatch (upsert st r) b := rfl

/-- Overwriting at the key of the written row does not change a row's key. -/
theorem rowKey_overwriteRow (k : RKey) (v x : Row) (hv : rowKey v = k) :
    rowKey (overwriteRow k v x) = rowKey x := by
  unfold overwriteRow
  split
  · next h => rw [hv, h]
  · rfl

/-- Overwriting at key `k` by a row keyed `k` preserves the key sequence. -/
theorem map_rowKey_map_overwrite (st : List Row) (k : RKey) (v : Row)
    (hv : rowKey v = k) :
    (st.map (overwriteRow k v)).map rowKey = st.map rowKey := by
  induction st with
  | nil => rfl
  | cons a t ih => simp [rowKey_overwriteRow k v a hv, ih]

/-- Key presence is membership in the key sequence. -/
theorem keyPresent_iff (st : List Row) (k : RKey) :
    keyPresent st k = true ↔ k ∈ st.map rowKey := by
  simp only [keyPresent, List.any_eq_true, decide_eq_true_eq, List.mem_map]

/-- Key presence is unchanged by overwriting at the key of the written row. -/
theorem keyPresent_map_overwrite (st : List Row) (k : RKey) (v : Row)
    (hv : rowKey v = k) (j : RKey) :
    keyPresent (st.map (overwriteRow k v)) j = keyPresent st j := by
  induction st with
  | nil => rfl
  | cons a t ih => simp [keyPresent, rowKey_overwriteRow k v a hv] at ih ⊢; rw [ih]

/-- The key sequence after an upsert. -/
theorem keys_upsert (st : List Row) (r : Row) :
    (upsert st r).map rowKey =
      if keyPresent st (rowKey r) then st.map rowKey
      else st.map rowKey ++ [rowKey r] := by
  unfold upsert
  split
  · exact map_rowKey_map_overwrite st _ r rfl
  · simp

/-- Upsert preserves key presence. -/
theorem keyPresent_upsert (st : List Row) (r : Row) (k : RKey)
    (h : keyPresent st k = true) : keyPresent (upsert st r) k = true := by
  rw [keyPresent_iff] at h ⊢
  rw [keys_upsert]
  split
  · exact h
  · exact List.mem_append_left _ h

/-- After upserting a row, its key is present. -/
theorem keyPresent_upsert_self (st : List Row) (r : Row) :
    keyPresent (upsert st r) (rowKey r) = true := by
  rw [keyPresent_iff, keys_upsert]
  split
  · next h => rw [← keyPresent_iff]; exact h
  · simp

/-- Loading a batch preserves key presence. -/
theorem keyPresent_ingest (b : List Row) : ∀ (st : List Row) (k : RKey),
    keyPresent st k = true → keyPresent (ingestBatch st b) k = true := by
  induction b with
  | nil => intro st k h; exact h
  | cons r b ih =>
    intro st k h
    rw [ingest_cons]
    exact ih _ _ (keyPresent_upsert st r k h)

/-- Every row of the store carrying key `k` is exactly `v`. -/
def AllRowsAt (st : List Row) (k : RKey) (v : Row) : Prop :=
  ∀ x ∈ st, rowKey x = k → x = v

/-- Overwriting at `k` by `v` is the identity when every key-k row already
equals `v`. -/
theorem map_overwrite_eq_self (st : List Row) (k : RKey) (v : Row)
    (h : AllRowsAt st k v) : st.map (overwriteRow k v) = st := by
  induction st with
  | nil => rfl
  | cons a t ih =>
    have ha : overwriteRow k v a = a := by
      unfold overwriteRow
      split
      · next hk => exact (h a (List.mem_cons_self a t) hk).symm
      · rfl
    have ht := ih (fun x hx hk => h x (List.mem_cons_of_mem a hx) hk)
    simp [ha, ht]

/-- After upserting `r`, every row keyed like `r` is `r`. -/
theorem allRowsAt_upsert_self (st : List Row) (r : Row) :
    AllRowsAt (upsert st r) (rowKey r) r := by
  unfold upsert
  split
  · intro x hx hk
    rcases List.mem_map.mp hx with ⟨y, hy, rfl⟩
    by_cases hyk : rowKey y = rowKey r
    · simp [overwriteRow, hyk]
    · simp only [overwriteRow, if_neg hyk] at hk
      exact absurd hk hyk
  · next hnp =>
    intro x hx hk
    rcases List.mem_append.mp hx with h1 | h1
    · exfalso
      apply hnp
      rw [keyPresent_iff, ← hk]
      exact List.mem_map_of_mem rowKey h1
    · simpa using h1

/-- Upserting a row with a different key preserves AllRowsAt. -/
theorem allRowsAt_upsert_other (st : List Row) (y : Row) (k : RKey) (v : Row)
    (hne : rowKey y ≠ k) (h : AllRowsAt st k v) : AllRowsAt (upsert st y) k v := by
  unfold upsert
  split
  · intro x hx hk
    rcases List.mem_map.mp hx with ⟨z, hz, rfl⟩
    by_cases hzk : rowKey z = rowKey y
    · simp only [overwriteRow, if_pos hzk] at hk
      exact absurd hk hne
    · simp only [overwriteRow, if_neg hzk] at hk ⊢
      exact h z hz hk
  · intro x hx hk
    rcases List.mem_append.mp hx with h1 | h1
    · exact h x h1 hk
    · simp only [List.mem_singleton] at h1
      subst h1
      exact absurd hk hne

/-- Loading a batch of rows none of which is keyed `k` preserves AllRowsAt. -/
theorem allRowsAt_ingest (b : List Row) : ∀ (st : List Row) (k : RKey) (v : Row),
    (∀ y ∈ b, rowKey y ≠ k) → AllRowsAt st k v →
    AllRowsAt (ingestBatch st b) k v := by
  induction b with
  | nil => intro st k v _ h; exact h
  | cons y b ih =>
    intro st k v hb h
    rw [ingest_cons]
    exact ih _ _ _ (fun z hz => hb z (List.mem_cons_of_mem y hz))
      (allRowsAt_upsert_other st y k v (hb y (List.mem_cons_self y b)) h)

/-- Two overwrites at the same key collapse to the last one. -/
theorem overwrite_comp_same (k : RKey) (r y x : Row) (hr : rowKey r = k) :
    overwriteRow k y (overwriteRow k r x) = overwriteRow k y x := by
  unfold overwriteRow
  by_cases hx : rowKey x = k
  · simp [hx, hr]
  · simp [hx]

/-- Overwrites at distinct keys commute. -/
theorem overwrite_comm (k ky : RKey) (r y x : Row) (hr : rowKey r = k)
    (hy : rowKey y = ky) (hne : ky ≠ k) :
    overwriteRow k r (overwriteRow ky y x) = overwriteRow ky y (overwriteRow k r x) := by
  unfold overwriteRow
  by_cases h1 : rowKey x = ky
  · have h2 : ¬ rowKey x = k := by rw [h1]; exact hne
    simp [h1, h2, hy, hne]
  · by_cases h2 : rowKey x = k
    · have h3 : ¬ rowKey r = ky := by rw [hr]; exact fun hc => hne hc.symm
      simp [h1, h2, hr, h3, hne.symm]
    · simp [h1, h2]

/-- Re-ingesting a batch that still writes key `k` absorbs a prior overwrite
at `k`: the overwrite is superseded by the batch's own last write. -/
theorem ingest_overwrite_absorb (b : List Row) :
    ∀ (T : List Row) (k : RKey) (r : Row), rowKey r = k →
      (∃ y ∈ b, rowKey y = k) → keyPresent T k = true →
      ingestBatch (T.map (overwriteRow k r)) b = ingestBatch T b := by
  induction b with
  | nil =>
    intro T k r _ hex _
    simp at hex
  | cons y b ih =>
    intro T k r hr hex hp
    rw [ingest_cons, ingest_cons]
    by_cases hyk : rowKey y = k
    · subst hr
      have hpm : keyPresent (T.map (overwriteRow (rowKey r) r)) (rowKey y) = true := by
        rw [keyPresent_map_overwrite T (rowKey r) r rfl, hyk]
        exact hp
      have hpT : keyPresent T (rowKey y) = true := by rw [hyk]; exact hp
      have e1 : upsert (T.map (overwriteRow (rowKey r) r)) y =
          T.map (overwriteRow (rowKey y) y) := by
        unfold upsert
        rw [if_pos hpm, List.map_map]
        have hcomp : (overwriteRow (rowKey y) y ∘ overwriteRow (rowKey r) r) =
            overwriteRow (rowKey y) y := by
          funext x
          show overwriteRow (rowKey y) y (overwriteRow (rowKey r) r x) =
            overwriteRow (rowKey y) y x
          rw [hyk]
          exact overwrite_comp_same (rowKey r) r y x rfl
        rw [hcomp]
      have e2 : upsert T y = T.map (overwriteRow (rowKey y) y) := by
        unfold upsert
        rw [if_pos hpT]
      rw [e1, e2]
    · have hex2 : ∃ z ∈ b, rowKey z = k := by
        rcases hex with ⟨z, hz, hzk⟩
        rcases List.mem_cons.mp hz with rfl | hzb
        · exact absurd hzk hyk
        · exact ⟨z, hzb, hzk⟩
      have hkp : keyPresent (T.map (overwriteRow k r)) (rowKey y) =
          keyPresent T (rowKey y) := keyPresent_map_overwrite T k r hr (rowKey y)
      have hp2 : keyPresent (upsert T y) k = true := keyPresent_upsert T y k hp
      by_cases hpy : keyPresent T (rowKey y) = true
      · have e1 : upsert (T.map (overwriteRow k r)) y =
            (upsert T y).map (overwriteRow k r) := by
          unfold upsert
          rw [hkp, if_pos hpy, if_pos hpy, List.map_map, List.map_map]
          have hcomm : (overwriteRow (rowKey y) y ∘ overwriteRow k r) =
              (overwriteRow k r ∘ overwriteRow (rowKey y) y) := by
            funext x
            exact (overwrite_comm k (rowKey y) r y x hr rfl hyk).symm
          rw [hcomm]
        rw [e1]
        exact ih (upsert T y) k r hr hex2 hp2
      · have e1 : upsert (T.map (overwriteRow k r)) y =
            (upsert T y).map (overwriteRow k r) := by
          unfold upsert
          rw [hkp, if_neg hpy, if_neg hpy, List.map_append]
          simp [overwriteRow, hyk]
        rw [e1]
        exact ih (upsert T y) k r hr hex2 hp2

/-- An upsert at a present key rewrites in place. -/
theorem upsert_present (st : List Row) (r : Row)
    (h : keyPresent st (rowKey r) = true) :
    upsert st r = st.map (overwriteRow (rowKey r) r) := by
  unfold upsert
  rw [if_pos h]

/-- Loading the same batch a second time leaves the store unchanged. -/
theorem ingest_idem (b : List Row) : ∀ st,
    ingestBatch (ingestBatch st b) b = ingestBatch st b := by
  induction b with
  | nil => intro st; rfl
  | cons r b ih =>
    intro st
    have hcons : ∀ s : List Row, ingestBatch s (r :: b) = ingestBatch (upsert s r) b :=
      fun s => rfl
    rw [hcons st, hcons]
    have hTidem : ingestBatch (ingestBatch (upsert st r) b) b =
        ingestBatch (upsert st r) b := ih (upsert st r)
    have hpT : keyPresent (ingestBatch (upsert st r) b) (rowKey r) = true :=
      keyPresent_ingest b (upsert st r) (rowKey r) (keyPresent_upsert_self st r)
    by_cases hex : ∃ y ∈ b, rowKey y = rowKey r
    · rw [upsert_present (ingestBatch (upsert st r) b) r hpT,
        ingest_overwrite_absorb b (ingestBatch (upsert st r) b) (rowKey r) r
          rfl hex hpT, hTidem]
    · push_neg at hex
      have hall : AllRowsAt (ingestBatch (upsert st r) b) (rowKey r) r :=
        allRowsAt_ingest b (upsert st r) (rowKey r) r hex (allRowsAt_upsert_self st r)
      rw [upsert_present (ingestBatch (upsert st r) b) r hpT,
        map_overwrite_eq_self (ingestBatch (upsert st r) b) (rowKey r) r hall,
        hTidem]

/-- The store carries no duplicate (type, id) key. -/
def KeyNodup (st : List Row) : Prop := (st.map rowKey).Nodup

/-- Upsert never introduces a duplicate key. -/
theorem keyNodup_upsert (st : List Row) (r : Row) (h : KeyNodup st) :
    KeyNodup (upsert st r) := by
  unfold KeyNodup at h ⊢
  rw [keys_upsert]
  split
  · exact h
  · next hnp =>
    rw [List.nodup_append]
    refine ⟨h, List.nodup_singleton _, ?_⟩
    intro a ha hb
    rw [List.mem_singleton] at hb
    subst hb
    apply hnp
    rw [keyPresent_iff]
    exact ha

/-- Loading a batch never introduces a duplicate key. -/
theorem keyNodup_ingest (b : List Row) : ∀ st, KeyNodup st →
    KeyNodup (ingestBatch st b) := by
  induction b with
  | nil => intro st h; exact h
  | cons r b ih =>
    intro st h
    rw [ingest_cons]
    exact ih _ (keyNodup_upsert st r h)

/-- C6: ingesting an identical batch twice leaves the same rows (same count,
same field values) as ingesting it once, and ingestion never creates a
duplicate row for a (type, id) key. -/
theorem ingest_twice_same_store_no_duplicates (st batch : List Row) :
    ingestBatch (ingestBatch st batch) batch = ingestBatch st batch ∧
    (KeyNodup st → KeyNodup (ingestBatch st batch)) :=
  ⟨ingest_idem batch st, fun h => keyNodup_ingest batch st h⟩

/-- Witness for C6: a two-document batch (with an in-batch overwrite of the
same key) ingested into the empty store. -/
theorem ingest_twice_witness :
    ingestBatch
      (ingestBatch []
        [ { rtype := .patient, rid := "p1", fields := [("full_name", "A")] }
        , { rtype := .patient, rid := "p1", fields := [("full_name", "B")] } ])
      [ { rtype := .patient, rid := "p1", fields := [("full_name", "A")] }
      , { rtype := .patient, rid := "p1", fields := [("full_name", "B")] } ] =
    ingestBatch []
      [ { rtype := .patient, rid := "p1", fields := [("full_name", "A")] }
      , { rtype := .patient, rid := "p1", fields := [("full_name", "B")] } ] ∧
    KeyNodup (ingestBatch []
      [ { rtype := .patient, rid := "p1", fields := [("full_name", "A")] }
      , { rtype := .patient, rid := "p1", fields := [("full_name", "B")] } ]) :=
  ⟨(ingest_twice_same_store_no_duplicates [] _).1,
   (ingest_twice_same_store_no_duplicates [] _).2 (by show (List.map rowKey []).Nodup; simp)⟩

/-!  Batch processing with decode errors (C7). -/

/-- Folding the per-document step equals loading the valid rows and
collecting one DecodeError per malformed document, in order. -/
theorem runBatch_foldl (docs : List RawDoc) : ∀ (st : List Row) (errs : List IngestError),
    docs.foldl processDoc { store := st, errors := errs } =
      { store := ingestBatch st (validRows docs)
        errors := errs ++ (decodeFailures docs).map IngestError.decodeError } := by
  induction docs with
  | nil =>
    intro st errs
    simp [validRows, decodeFailures, ingestBatch]
  | cons d ds ih =>
    intro st errs
    cases d with
    | malformed src =>
      show ds.foldl processDoc { store := st, errors := errs ++ [.decodeError src] } = _
      rw [ih]
      simp [validRows, decodeFailures, List.filterMap_cons]
    | wellFormed r =>
      show ds.foldl processDoc { store := upsert st r, errors := errs } = _
      rw [ih]
      simp [validRows, decodeFailures, List.filterMap_cons, ingest_cons]

/-- The batch result: valid rows committed, one DecodeError per malformed
document. -/
theorem runBatch_spec (st : List Row) (docs : List RawDoc) :
    runBatch st docs =
      { store := ingestBatch st (validRows docs)
        errors := (decodeFailures docs).map IngestError.decodeError } := by
  unfold runBatch
  rw [runBatch_foldl]
  simp

/-- Valid and malformed documents partition the batch. -/
theorem valid_plus_failures (docs : List RawDoc) :
    (validRows docs).length + (decodeFailures docs).length = docs.length := by
  induction docs with
  | nil => rfl
  | cons d ds ih =>
    cases d <;> simp [validRows, decodeFailures, List.filterMap_cons] at ih ⊢ <;> omega

/-- C7: a ten-document batch with exactly one malformed document commits the
nine valid rows and reports exactly one DecodeError; a bad document never
aborts the batch. -/
theorem single_bad_document_isolated (st : List Row) (docs : List RawDoc)
    (hlen : docs.length = 10) (hbad : (decodeFailures docs).length = 1) :
    (validRows docs).length = 9 ∧
    (runBatch st docs).store = ingestBatch st (validRows docs) ∧
    (runBatch st docs).errors.length = 1 ∧
    (runBatch st docs).errors = (decodeFailures docs).map IngestError.decodeError := by
  have hsum := valid_plus_failures docs
  rw [runBatch_spec]
  refine ⟨by omega, rfl, by simp [hbad], rfl⟩

/-- A concrete ten-document batch: nine valid rows, one malformed document. -/
def sampleBatchDocs : List RawDoc :=
  [ .wellFormed { rtype := .patient, rid := "p1", fields := [] }
  , .wellFormed { rtype := .patient, rid := "p2", fields := [] }
  , .wellFormed { rtype := .encounter, rid := "e1", fields := [] }
  , .malformed "doc4.json"
  , .wellFormed { rtype := .condition, rid := "c1", fields := [] }
  , .wellFormed { rtype := .observation, rid := "o1", fields := [] }
  , .wellFormed { rtype := .immunization, rid := "i1", fields := [] }
  , .wellFormed { rtype := .careplan, rid := "cp1", fields := [] }
  , .wellFormed { rtype := .medicationRequest, rid := "m1", fields := [] }
  , .wellFormed { rtype := .procedure, rid := "pr1", fields := [] } ]

/-- Witness for C7 at the concrete ten-document batch. -/
theorem single_bad_document_witness :
    (validRows sampleBatchDocs).length = 9 ∧
    (runBatch [] sampleBatchDocs).errors.length = 1 := by
  have h := single_bad_document_isolated [] sampleBatchDocs rfl rfl
  exact ⟨h.1, h.2.2.1⟩
